import Mathlib

/-!
Shallow embedding of the aggregation layer of the CMU Movie Dataset manager
(`movie_dataset.py`, class `MovieDataset`), together with proofs about its
aggregation operations `movie_type`, `actor_count`, `actor_distributions`
and `releases`.

Modelling choices:

* Python's dynamically typed argument values are modelled by `PyVal`
  (integers, floats, strings, None); floats are modelled by `ℚ` since the
  heights involved are exact decimals and the code only compares and divides
  by 100.
* A pandas cell of the `genres` column holds either NaN (`missing`), a
  stringified dictionary that `eval` parses to a dict (`dict`, keeping the
  key/value pairs), or a string on which `eval` raises (`malformed`).
* A `release_date` cell either is NaN, parses to a date (we keep only the
  year, the sole component the code uses), or is unparsable
  (`pd.to_datetime(..., errors="coerce")` turns it into NaT).
* An `actor_height` cell is NaN, a number, a numeric string (which
  `pd.to_numeric` parses), or a non-numeric string (coerced to NaN).
* Raised exceptions are modelled by `Except PyErr`; every `raise
  ValueError(msg)` in the source becomes `.error (.valueError msg)`, and an
  exception escaping `eval` on a malformed cell becomes `.error (.evalError s)`.
* Tables carry the list of their column labels (`cols`) plus the rows
  projected to the fields the aggregation operations read; the shared
  mutable state `self` is the pair of optional tables `MovieDataset`, and
  each operation returns its result together with the (possibly mutated)
  state, modelling the in-place column coercions.
* Where pandas sorts (`value_counts`'s descending count order,
  `sort_values`, `sort_index`), we use `List.insertionSort` with the
  corresponding relation; the exact stable sort used by pandas only differs
  from it in tie order, which none of the verified properties depend on.
-/

namespace MovieRepo

/-! ## Python-level values and errors -/

inductive PyVal where
  | int (n : Int)
  | float (q : ℚ)
  | str (s : String)
  | none
deriving DecidableEq

inductive PyErr where
  | valueError (msg : String)
  | keyError (msg : String)
  | evalError (msg : String)
deriving DecidableEq

/-- The Python exception class of a raised error. -/
def PyErr.kind : PyErr → String
  | .valueError _ => "ValueError"
  | .keyError _ => "KeyError"
  | .evalError _ => "EvalError"

/-- The message carried by a raised error. -/
def PyErr.msg : PyErr → String
  | .valueError m => m
  | .keyError m => m
  | .evalError m => m

def isIntVal : PyVal → Bool
  | .int _ => true
  | _ => false

def isStrVal : PyVal → Bool
  | .str _ => true
  | _ => false

/-- `isinstance(x, (int, float))`. -/
def isNumeric : PyVal → Bool
  | .int _ => true
  | .float _ => true
  | _ => false

/-- The numeric value of an int or float argument. -/
def numVal : PyVal → ℚ
  | .int n => (n : ℚ)
  | .float q => q
  | _ => 0

def isErr {α : Type} : Except PyErr α → Bool
  | .error _ => true
  | .ok _ => false

/-! ## Cells -/

inductive GenresCell where
  | missing
  | dict (entries : List (String × String))
  | malformed (text : String)
deriving DecidableEq

/-- `eval(x).values()` on a genres cell: the list of genre names of a
parseable stringified dictionary; an exception on anything else. -/
def parseGenres : GenresCell → Except PyErr (List String)
  | .dict m => .ok (m.map Prod.snd)
  | .malformed s => .error (.evalError s)
  | .missing => .error (.evalError "nan")

/-- The genre names a cell contributes: the dictionary values when the cell
parses, nothing otherwise. -/
def genresValues : GenresCell → List String
  | .dict m => m.map Prod.snd
  | _ => []

inductive DateCell where
  | missing
  | parsed (year : Int)
  | unparsable (text : String)
deriving DecidableEq

/-- `pd.to_datetime(col, errors="coerce")`: an unparsable date becomes NaT. -/
def coerceDate : DateCell → DateCell
  | .parsed y => .parsed y
  | _ => .missing

/-- `.dt.year`: the year of a parsed date, NaN otherwise. -/
def yearOf : DateCell → Option Int
  | .parsed y => some y
  | _ => none

inductive HeightCell where
  | na
  | num (q : ℚ)
  | numStr (q : ℚ)
  | badStr (s : String)
deriving DecidableEq

/-- `pd.to_numeric(col, errors="coerce")`: numeric strings parse, other
strings become NaN. -/
def coerceHeight : HeightCell → HeightCell
  | .num q => .num q
  | .numStr q => .num q
  | .badStr _ => .na
  | .na => .na

/-- The unit normalization applied to `actor_height`: values above 10 are
taken to be centimeters and divided by 100. -/
def normalizeHeight (q : ℚ) : ℚ :=
  if q > 10 then q / 100 else q

/-! ## Tables and shared state -/

/-- A `movie_metadata` row, projected to the columns the aggregation
operations read. -/
structure MovieRow where
  release_date : DateCell
  genres : GenresCell
deriving DecidableEq

structure MovieTable where
  cols : List String
  rows : List MovieRow
deriving DecidableEq

/-- A `character_metadata` row, projected to the columns the aggregation
operations read. -/
structure CharRow where
  wiki_movie_id : Option Int
  actor_name : Option String
  actor_gender : Option String
  actor_height : HeightCell
deriving DecidableEq

structure CharTable where
  cols : List String
  rows : List CharRow
deriving DecidableEq

/-- A `character_metadata` row after the height column has been cleaned:
the height is a definite number (in meters). -/
structure CleanCharRow where
  wiki_movie_id : Option Int
  actor_name : Option String
  actor_gender : Option String
  actor_height : ℚ
deriving DecidableEq

/-- The shared state: the tables the loader stored on `self`. -/
structure MovieDataset where
  movie_metadata : Option MovieTable
  character_metadata : Option CharTable
deriving DecidableEq

/-- The recognized `movie_metadata` schema (`column_names` in the source). -/
def movieMetadataSchema : List String :=
  ["wiki_movie_id", "freebase_movie_id", "movie_name", "release_date",
   "box_office_revenue", "runtime", "languages", "countries", "genres"]

/-- The recognized `character_metadata` schema (`column_names` in the source). -/
def charMetadataSchema : List String :=
  ["wiki_movie_id", "freebase_movie_id", "release_date", "character_name",
   "actor_dob", "actor_gender", "actor_height", "actor_ethnicity",
   "actor_name", "actor_age_at_release", "freebase_char_actor_map_id",
   "freebase_char_id", "freebase_actor_id"]

/-! ## Generic list machinery: deduplication, counting, sorting -/

/-- Distinct elements of a list in order of first appearance (the order
`pandas.Series.unique` and `value_counts` use). -/
def firstDedup {α : Type} [DecidableEq α] : List α → List α
  | [] => []
  | x :: xs => x :: (firstDedup xs).filter (fun y => y ≠ x)

theorem mem_firstDedup {α : Type} [DecidableEq α] {a : α} :
    ∀ {l : List α}, a ∈ firstDedup l ↔ a ∈ l
  | [] => Iff.rfl
  | x :: xs => by
    simp only [firstDedup, List.mem_cons, List.mem_filter, mem_firstDedup (l := xs)]
    constructor
    · rintro (rfl | ⟨h, _⟩)
      · exact Or.inl rfl
      · exact Or.inr h
    · rintro (rfl | h)
      · exact Or.inl rfl
      · by_cases hax : a = x
        · exact Or.inl hax
        · exact Or.inr ⟨h, by simpa using hax⟩

theorem nodup_firstDedup {α : Type} [DecidableEq α] :
    ∀ (l : List α), (firstDedup l).Nodup
  | [] => List.nodup_nil
  | x :: xs => by
    simp only [firstDedup, List.nodup_cons]
    refine ⟨fun hx => ?_, (nodup_firstDedup xs).filter _⟩
    have := (List.mem_filter.mp hx).2
    simp at this

theorem toFinset_firstDedup {α : Type} [DecidableEq α] (l : List α) :
    (firstDedup l).toFinset = l.toFinset := by
  ext a
  simp [List.mem_toFinset, mem_firstDedup]

/-- `pandas.Series.value_counts` before its internal sort: one `(value,
occurrence count)` pair per distinct value. -/
def value_counts {α : Type} [DecidableEq α] (l : List α) : List (α × Nat) :=
  (firstDedup l).map (fun x => (x, l.count x))

theorem value_counts_map_fst {α : Type} [DecidableEq α] (l : List α) :
    (value_counts l).map Prod.fst = firstDedup l := by
  simp [value_counts, List.map_map, Function.comp_def]

theorem mem_value_counts {α : Type} [DecidableEq α] {l : List α} {p : α × Nat}
    (hp : p ∈ value_counts l) : p.1 ∈ l ∧ p.2 = l.count p.1 := by
  rcases List.mem_map.mp hp with ⟨x, hx, rfl⟩
  exact ⟨mem_firstDedup.mp hx, rfl⟩

theorem sum_value_counts {α : Type} [DecidableEq α] (l : List α) :
    ((value_counts l).map Prod.snd).sum = l.length := by
  have h1 : (value_counts l).map Prod.snd = (firstDedup l).map (fun x => l.count x) := by
    simp [value_counts, List.map_map, Function.comp_def]
  rw [h1]
  have h2 := List.sum_toFinset (fun x => l.count x) (nodup_firstDedup l)
  rw [← h2, toFinset_firstDedup]
  exact List.sum_toFinset_count_eq_length l

/-- Ascending order on the first (key/index) component of `(key, count)`
pairs: the order of `sort_values` on the value column and of `sort_index`. -/
def keyLe {β : Type} [LE β] (p q : β × Nat) : Prop := p.1 ≤ q.1

instance {β : Type} [LinearOrder β] : DecidableRel (keyLe (β := β)) :=
  fun p q => inferInstanceAs (Decidable (p.1 ≤ q.1))

instance {β : Type} [LinearOrder β] : IsTotal (β × Nat) keyLe :=
  ⟨fun p q => le_total p.1 q.1⟩

instance {β : Type} [LinearOrder β] : IsTrans (β × Nat) keyLe :=
  ⟨fun _ _ _ h₁ h₂ => le_trans h₁ h₂⟩

/-- Descending order on the count component of `(value, count)` pairs: the
order in which `value_counts` returns its rows. -/
def cntGe (p q : String × Nat) : Prop := q.2 ≤ p.2

instance : DecidableRel cntGe := fun p q => inferInstanceAs (Decidable (q.2 ≤ p.2))

instance : IsTotal (String × Nat) cntGe := ⟨fun p q => le_total q.2 p.2⟩

instance : IsTrans (String × Nat) cntGe := ⟨fun _ _ _ h₁ h₂ => le_trans h₂ h₁⟩

theorem pairwise_lt_sort_value_counts {β : Type} [LinearOrder β] [DecidableEq β]
    (l : List β) :
    List.Pairwise (fun p q : β × Nat => p.1 < q.1)
      (List.insertionSort keyLe (value_counts l)) := by
  have hs : List.Sorted keyLe (List.insertionSort keyLe (value_counts l)) :=
    List.sorted_insertionSort keyLe _
  have hperm : List.Perm (List.insertionSort keyLe (value_counts l)) (value_counts l) :=
    List.perm_insertionSort keyLe _
  have hnd : ((List.insertionSort keyLe (value_counts l)).map Prod.fst).Nodup := by
    have hp : List.Perm ((value_counts l).map Prod.fst)
        ((List.insertionSort keyLe (value_counts l)).map Prod.fst) :=
      (hperm.map Prod.fst).symm
    exact hp.nodup (by rw [value_counts_map_fst]; exact nodup_firstDedup l)
  have hne : List.Pairwise (fun p q : β × Nat => p.1 ≠ q.1)
      (List.insertionSort keyLe (value_counts l)) := List.pairwise_map.mp hnd
  exact (List.Pairwise.and hs hne).imp (fun h => lt_of_le_of_ne h.1 h.2)

theorem sum_map_snd_sort_value_counts {β : Type} [LinearOrder β] [DecidableEq β]
    (l : List β) :
    ((List.insertionSort keyLe (value_counts l)).map Prod.snd).sum = l.length := by
  have hperm := (List.perm_insertionSort keyLe (value_counts l)).map Prod.snd
  rw [hperm.sum_eq, sum_value_counts]

theorem mem_sort_value_counts {β : Type} [LinearOrder β] [DecidableEq β]
    {l : List β} {p : β × Nat}
    (hp : p ∈ List.insertionSort keyLe (value_counts l)) :
    p.1 ∈ l ∧ p.2 = l.count p.1 :=
  mem_value_counts ((List.perm_insertionSort keyLe (value_counts l)).mem_iff.mp hp)

/-! ## Exception-propagating row traversals -/

/-- `Series.apply f` where `f` may raise: rows are processed in order and
the first exception aborts the whole operation. -/
def mapExcept {α β : Type} (f : α → Except PyErr β) : List α → Except PyErr (List β)
  | [] => .ok []
  | x :: xs =>
    match f x with
    | .error e => .error e
    | .ok y =>
      match mapExcept f xs with
      | .error e => .error e
      | .ok ys => .ok (y :: ys)

/-- Row filtering `df[df.apply(pred)]` by a predicate that may raise. -/
def filterExcept {α : Type} (f : α → Except PyErr Bool) : List α → Except PyErr (List α)
  | [] => .ok []
  | x :: xs =>
    match f x with
    | .error e => .error e
    | .ok b =>
      match filterExcept f xs with
      | .error e => .error e
      | .ok ys => .ok (if b then x :: ys else ys)

theorem mapExcept_parseGenres_ok {cells : List GenresCell} {ls : List (List String)}
    (h : mapExcept parseGenres cells = .ok ls) : ls = cells.map genresValues := by
  induction cells generalizing ls with
  | nil =>
    simp only [mapExcept] at h
    cases h
    rfl
  | cons c cs ih =>
    cases c with
    | missing => simp [mapExcept, parseGenres] at h
    | malformed s => simp [mapExcept, parseGenres] at h
    | dict m =>
      simp only [mapExcept, parseGenres] at h
      cases hcs : mapExcept parseGenres cs with
      | error e => rw [hcs] at h; cases h
      | ok ys =>
        rw [hcs] at h
        cases h
        simp [genresValues, ih hcs]

theorem filterExcept_ok {α : Type} {f : α → Except PyErr Bool} {l l' : List α}
    (h : filterExcept f l = .ok l') :
    l' = l.filter (fun x => match f x with | .ok b => b | .error _ => false) := by
  induction l generalizing l' with
  | nil =>
    simp only [filterExcept] at h
    cases h
    rfl
  | cons x xs ih =>
    simp only [filterExcept] at h
    cases hx : f x with
    | error e => rw [hx] at h; cases h
    | ok b =>
      rw [hx] at h
      cases hxs : filterExcept f xs with
      | error e => rw [hxs] at h; cases h
      | ok ys =>
        rw [hxs] at h
        cases h
        rw [List.filter_cons]
        simp only [hx]
        rw [ih hxs]

theorem flatten_filter_missing (cells : List GenresCell) :
    ((cells.filter (fun g => g ≠ GenresCell.missing)).map genresValues).flatten
      = (cells.map genresValues).flatten := by
  induction cells with
  | nil => rfl
  | cons c cs ih =>
    cases c with
    | missing =>
      rw [List.filter_cons_of_neg (by simp)]
      simp only [List.map_cons, List.flatten_cons, genresValues, List.nil_append]
      exact ih
    | dict m =>
      rw [List.filter_cons_of_pos (by simp)]
      simp only [List.map_cons, List.flatten_cons]
      rw [ih]
    | malformed s =>
      rw [List.filter_cons_of_pos (by simp)]
      simp only [List.map_cons, List.flatten_cons]
      rw [ih]

/-! ## The aggregation operations -/

/-- `DataFrame.head` with a possibly negative argument: the first `n` rows
for `n ≥ 0`, and all but the last `|n|` rows for negative `n`. -/
def headInt {α : Type} (l : List α) (n : Int) : List α :=
  if 0 ≤ n then l.take n.toNat else l.take (l.length - n.natAbs)

/-- `MovieDataset.movie_type(top_n)`: checks that `top_n` is an int and
that `movie_metadata` is loaded, drops NaN genre cells, evaluates each
remaining cell as a stringified dict and flattens the genre names, counts
occurrences, and returns the head of the descending `value_counts` order.
The state is returned unchanged (the method does not mutate the tables). -/
def movie_type (ds : MovieDataset) (top_n : PyVal) :
    Except PyErr (List (String × Nat)) × MovieDataset :=
  match top_n with
  | .int n =>
    match ds.movie_metadata with
    | Option.none => (.error (.valueError "Movie metadata is not loaded."), ds)
    | Option.some t =>
      if "genres" ∈ t.cols then
        match mapExcept parseGenres
            ((t.rows.map (fun r => r.genres)).filter (fun g => g ≠ GenresCell.missing)) with
        | .error e => (.error e, ds)
        | .ok lists =>
          (.ok (headInt (List.insertionSort cntGe (value_counts lists.flatten)) n), ds)
      else (.error (.keyError "genres"), ds)
  | _ => (.error (.valueError "top_n must be an integer."), ds)

/-- Every genre name contributed by the parseable genre cells of a table,
in row order, with multiplicity. -/
def allGenres (t : MovieTable) : List String :=
  (t.rows.map (fun r => genresValues r.genres)).flatten

/-- The number of distinct genre names occurring across all parseable
genre cells of a table. -/
def distinctGenreCount (t : MovieTable) : Nat :=
  (firstDedup (allGenres t)).length

/-- The number of distinct `actor_name` values attached to the rows of a
given movie (`groupby("wiki_movie_id")["actor_name"].nunique()`): distinct
non-missing names among the rows carrying that movie id. -/
def nuniqueActors (rows : List CharRow) (k : Int) : Nat :=
  (firstDedup ((rows.filter (fun r => r.wiki_movie_id = some k)).filterMap
    (fun r => r.actor_name))).length

/-- `MovieDataset.actor_count()`: the histogram of per-movie distinct-actor
counts, sorted ascending by actor count.  `groupby` drops rows whose
`wiki_movie_id` is missing and visits each remaining id once; the order in
which `groupby` visits the ids does not affect the result, which is sorted
at the end. -/
def actor_count (ds : MovieDataset) :
    Except PyErr (List (Nat × Nat)) × MovieDataset :=
  match ds.character_metadata with
  | Option.none => (.error (.valueError "Character metadata is not loaded."), ds)
  | Option.some t =>
    if "wiki_movie_id" ∈ t.cols ∧ "actor_name" ∈ t.cols then
      (.ok (List.insertionSort keyLe (value_counts
        ((firstDedup (t.rows.filterMap (fun r => r.wiki_movie_id))).map
          (nuniqueActors t.rows)))), ds)
    else (.error (.valueError "Missing required columns"), ds)

/-- The number of movies having at least one actor record: the distinct
non-missing `wiki_movie_id` values of the character table. -/
def moviesWithActorRecord (t : CharTable) : Nat :=
  (firstDedup (t.rows.filterMap (fun r => r.wiki_movie_id))).length

/-- The height dropna plus unit normalization applied to the working copy
inside `actor_distributions`: rows whose (already coerced) height is NaN
are dropped, heights above 10 are divided by 100. -/
def dropnaNormalize (rows : List CharRow) : List CleanCharRow :=
  rows.filterMap (fun r =>
    match r.actor_height with
    | .num q => Option.some
        { wiki_movie_id := r.wiki_movie_id, actor_name := r.actor_name,
          actor_gender := r.actor_gender, actor_height := normalizeHeight q }
    | _ => Option.none)

/-- In-place numeric coercion of the `actor_height` column of the shared
character table (`pd.to_numeric(..., errors="coerce")`). -/
def coerceCharRow (r : CharRow) : CharRow :=
  { r with actor_height := coerceHeight r.actor_height }

/-- The gender values accepted by `actor_distributions`: the distinct
non-missing genders of the height-cleaned data, plus `"All"`. -/
def validGenders (t : CharTable) : List String :=
  firstDedup ((dropnaNormalize (t.rows.map coerceCharRow)).filterMap
    (fun r => r.actor_gender)) ++ ["All"]

/-- `MovieDataset.actor_distributions(gender, max_height, min_height)`:
validates argument types, requires the character table and its two columns,
coerces `actor_height` to numeric in place on the shared table, drops NaN
heights and normalizes units on a copy, validates the gender against the
observed values, and filters to the chosen gender and the inclusive height
range.  The returned state carries the in-place coercion, which has already
happened when an invalid gender is rejected. -/
def actor_distributions (ds : MovieDataset) (gender max_height min_height : PyVal) :
    Except PyErr (List CleanCharRow) × MovieDataset :=
  match gender with
  | .str g =>
    if isNumeric max_height && isNumeric min_height then
      match ds.character_metadata with
      | Option.none => (.error (.valueError "Character metadata is not loaded."), ds)
      | Option.some t =>
        if "actor_gender" ∈ t.cols ∧ "actor_height" ∈ t.cols then
          let t' : CharTable := { cols := t.cols, rows := t.rows.map coerceCharRow }
          let ds' : MovieDataset := { ds with character_metadata := Option.some t' }
          let df := dropnaNormalize t'.rows
          let valid := firstDedup (df.filterMap (fun r => r.actor_gender)) ++ ["All"]
          if g ≠ "All" ∧ g ∉ valid then
            (.error (.valueError ("Invalid gender value. Must be one of: "
              ++ String.intercalate ", " valid)), ds')
          else
            let df1 := if g = "All" then df
              else df.filter (fun r => r.actor_gender = Option.some g)
            (.ok (df1.filter (fun r =>
              decide (numVal min_height ≤ r.actor_height)
                && decide (r.actor_height ≤ numVal max_height))), ds')
        else (.error (.valueError "Missing required columns"), ds)
    else (.error (.valueError "Height limits must be numerical values."), ds)
  | _ => (.error (.valueError "Gender must be a string."), ds)

/-- Whether a genres cell, read as a parseable stringified dict, contains
a given genre name; raises on a malformed cell, and is `False` for a NaN
cell without evaluating it (`pd.notna` guard). -/
def genreHasE (c : GenresCell) (g : String) : Except PyErr Bool :=
  match c with
  | .dict m => .ok (decide (g ∈ m.map Prod.snd))
  | .missing => .ok false
  | .malformed s => .error (.evalError s)

/-- `MovieDataset.releases(genre)`: requires the movie table with its
`release_date` and `genres` columns, coerces `release_date` in place and
adds the derived `Year` column to the shared table, drops rows without a
year, optionally filters to rows whose genre dict contains `genre`
(a `None` or empty `genre` is falsy and skips the filter), and counts
movies per year, sorted ascending by year. -/
def releases (ds : MovieDataset) (genre : Option String) :
    Except PyErr (List (Int × Nat)) × MovieDataset :=
  match ds.movie_metadata with
  | Option.none => (.error (.valueError "Movie metadata is not loaded."), ds)
  | Option.some t =>
    if "release_date" ∈ t.cols ∧ "genres" ∈ t.cols then
      let rows' := t.rows.map (fun r => { r with release_date := coerceDate r.release_date })
      let t' : MovieTable :=
        { cols := if "Year" ∈ t.cols then t.cols else t.cols ++ ["Year"], rows := rows' }
      let ds' : MovieDataset := { ds with movie_metadata := Option.some t' }
      let kept := rows'.filterMap (fun r =>
        (yearOf r.release_date).map (fun y => (y, r.genres)))
      match (match genre with
             | Option.some g =>
               if g ≠ "" then
                 filterExcept (fun p : Int × GenresCell => genreHasE p.2 g) kept
               else .ok kept
             | Option.none => .ok kept) with
      | .error e => (.error e, ds')
      | .ok keptF =>
        (.ok (List.insertionSort keyLe (value_counts (keptF.map Prod.fst))), ds')
    else
      (.error (.valueError
        "Required columns (release_date, genres) are missing from the dataset."), ds)

/-! ## Concrete datasets used by witnesses and counterexamples -/

/-- A small well-formed loaded `movie_metadata` table. -/
def tA : MovieTable :=
  { cols := movieMetadataSchema,
    rows :=
      [ { release_date := .parsed 1995,
          genres := .dict [("/m/k1", "Drama"), ("/m/k2", "Documentary")] },
        { release_date := .parsed 1990,
          genres := .dict [("/m/k3", "Drama")] },
        { release_date := .unparsable "circa 1970",
          genres := .dict [("/m/k4", "Documentary")] },
        { release_date := .missing, genres := .missing } ] }

/-- A small well-formed loaded `character_metadata` table. -/
def tB : CharTable :=
  { cols := charMetadataSchema,
    rows :=
      [ { wiki_movie_id := Option.some 1, actor_name := Option.some "Ann",
          actor_gender := Option.some "F", actor_height := .num 180 },
        { wiki_movie_id := Option.some 1, actor_name := Option.some "Bob",
          actor_gender := Option.some "M", actor_height := .numStr (3/2) },
        { wiki_movie_id := Option.some 2, actor_name := Option.some "Cid",
          actor_gender := Option.none, actor_height := .badStr "tall" } ] }

/-- A dataset with both tables loaded. -/
def dsA : MovieDataset :=
  { movie_metadata := Option.some tA, character_metadata := Option.some tB }

/-- A dataset with no tables loaded. -/
def dsEmpty : MovieDataset :=
  { movie_metadata := Option.none, character_metadata := Option.none }

/-- A `movie_metadata` table with a malformed genres cell on a row whose
release date is parseable. -/
def tBad : MovieTable :=
  { cols := movieMetadataSchema,
    rows :=
      [ { release_date := .parsed 1999, genres := .dict [("/m/k1", "Documentary")] },
        { release_date := .parsed 2001, genres := .malformed "Thriller" } ] }

/-- A dataset whose movie table holds a malformed genres cell. -/
def dsBad : MovieDataset :=
  { movie_metadata := Option.some tBad, character_metadata := Option.some tB }

/-- A `character_metadata` table holding a non-numeric height string. -/
def tC : CharTable :=
  { cols := charMetadataSchema,
    rows :=
      [ { wiki_movie_id := Option.some 7, actor_name := Option.some "Dee",
          actor_gender := Option.some "M", actor_height := .badStr "tall" } ] }

/-- A dataset whose character table holds a non-numeric height string. -/
def dsC : MovieDataset :=
  { movie_metadata := Option.some tA, character_metadata := Option.some tC }

/-! ## Verified properties -/

/-- C2 (code bug): the spec requires a malformed (unparseable) genres cell
to degrade to a missing value with its row excluded, the operation
returning normally; instead, on `dsBad`, whose movie table holds one
malformed genres cell, both `movie_type` and `releases` raise the
exception escaping `eval` on that cell. -/
theorem movie_type_releases_raise_on_malformed :
    (movie_type dsBad (.int 10)).1 = .error (.evalError "Thriller") ∧
    (releases dsBad (Option.some "Documentary")).1 = .error (.evalError "Thriller") :=
  ⟨rfl, rfl⟩

/-- C3 counterexample: for `movie_type`, the missing-data failure (no movie
table loaded) and the invalid-argument failure (non-integer `top_n`) carry
the same error kind, `ValueError`; the two failure signals are not two
distinct error kinds. -/
theorem movie_type_error_kinds_coincide :
    (movie_type dsEmpty (.int 3)).1 = .error (.valueError "Movie metadata is not loaded.") ∧
    (movie_type dsA (.str "three")).1 = .error (.valueError "top_n must be an integer.") ∧
    PyErr.kind (.valueError "Movie metadata is not loaded.")
      = PyErr.kind (.valueError "top_n must be an integer.") :=
  ⟨rfl, rfl, rfl⟩

/-- C3 amended: both the missing-data failure and the invalid-argument
failure of `movie_type` raise the same exception kind (`ValueError`); the
caller can distinguish them only by the message text, which differs. -/
theorem movie_type_error_kinds_same_messages_differ :
    (movie_type dsEmpty (.int 3)).1 = .error (.valueError "Movie metadata is not loaded.") ∧
    (movie_type dsA (.str "three")).1 = .error (.valueError "top_n must be an integer.") ∧
    PyErr.kind (.valueError "Movie metadata is not loaded.")
      = PyErr.kind (.valueError "top_n must be an integer.") ∧
    PyErr.msg (.valueError "Movie metadata is not loaded.")
      ≠ PyErr.msg (.valueError "top_n must be an integer.") :=
  ⟨rfl, rfl, rfl, by decide⟩

/-- C8 counterexample: `top_n = 0` and `top_n = -1` are not positive
integers, yet `movie_type` accepts them and returns normally (an empty
table for `0`, all but the last row for `-1`) instead of failing with an
invalid-argument error. -/
theorem movie_type_accepts_nonpositive_int :
    (movie_type dsA (.int 0)).1 = .ok [] ∧
    (movie_type dsA (.int (-1))).1 = .ok [("Drama", 2)] :=
  ⟨rfl, rfl⟩

/-- C8 amended: only a `top_n` that is not a Python int (including numeric
strings such as `"ten"`) is rejected with the invalid-argument
`ValueError`; zero and negative integers pass the validation. -/
theorem movie_type_rejects_nonint (ds : MovieDataset) (v : PyVal)
    (h : isIntVal v = false) :
    (movie_type ds v).1 = .error (.valueError "top_n must be an integer.") := by
  cases v with
  | int n => simp [isIntVal] at h
  | float q => rfl
  | str s => rfl
  | none => rfl

/-- C8 witness: the amended claim applied to the spec's own example,
`movie_type("ten")`. -/
theorem movie_type_rejects_nonint_witness :
    isIntVal (.str "ten") = false ∧
    (movie_type dsA (.str "ten")).1 = .error (.valueError "top_n must be an integer.") :=
  ⟨rfl, movie_type_rejects_nonint dsA (.str "ten") rfl⟩

/-- C9 counterexample: the `>10 ⇒ ÷100` height normalization is not
idempotent on every numeric value: applied to `2000` it yields `20`, and a
second application divides again, yielding `1/5`. -/
theorem normalizeHeight_not_idempotent_at_2000 :
    normalizeHeight (normalizeHeight 2000) ≠ normalizeHeight 2000 := by
  norm_num [normalizeHeight]

/-- C9 amended: the normalization maps `180` to `1.8`, leaves `1.8`
unchanged, and applying it twice agrees with applying it once for every
value at most `1000` (for larger values the once-normalized result is
still above `10` and is divided again). -/
theorem normalizeHeight_maps_and_idempotent_below_1000 :
    normalizeHeight 180 = 9/5 ∧ normalizeHeight (9/5) = 9/5 ∧
    ∀ q : ℚ, q ≤ 1000 → normalizeHeight (normalizeHeight q) = normalizeHeight q := by
  refine ⟨by norm_num [normalizeHeight], by norm_num [normalizeHeight], fun q hq => ?_⟩
  unfold normalizeHeight
  split
  · next h10 =>
    have : ¬ q / 100 > 10 := by
      intro hgt
      have : (1000 : ℚ) < q := by linarith
      linarith
    simp [this]
  · next h10 => simp [h10]

/-- C9 witness: the amended idempotence applied at `1000`. -/
theorem normalizeHeight_idempotent_witness :
    (1000 : ℚ) ≤ 1000 ∧
    normalizeHeight (normalizeHeight 1000) = normalizeHeight 1000 :=
  ⟨by norm_num, normalizeHeight_maps_and_idempotent_below_1000.2.2 1000 (by norm_num)⟩

/-- C5 counterexample: a failed aggregation call can change the shared
table state: on `dsC`, whose single character row has the non-numeric
height string `"tall"`, `actor_distributions` with the invalid gender
`"X"` fails, yet the in-place numeric coercion of `actor_height` has
already replaced the string cell by NaN, so later calls observe a
different state. -/
theorem actor_distributions_failed_call_mutates_state :
    isErr (actor_distributions dsC (.str "X") (.float 2) (.float 1)).1 = true ∧
    (actor_distributions dsC (.str "X") (.float 2) (.float 1)).2 ≠ dsC :=
  ⟨rfl, by decide⟩

/-- C5 amended: failures raised by the argument-type checks or by the
missing-table / missing-column checks leave the shared state unchanged;
the invalid-gender failure of `actor_distributions` is raised only after
the in-place height coercion and can therefore mutate the shared table. -/
theorem actor_distributions_early_failures_preserve_state
    (ds : MovieDataset) (g mh mn : PyVal)
    (h : isStrVal g = false ∨ isNumeric mh = false ∨ isNumeric mn = false ∨
      ds.character_metadata = Option.none ∨
      ∃ t, ds.character_metadata = Option.some t ∧
        ¬("actor_gender" ∈ t.cols ∧ "actor_height" ∈ t.cols)) :
    isErr (actor_distributions ds g mh mn).1 = true ∧
    (actor_distributions ds g mh mn).2 = ds := by
  cases g with
  | int n => exact ⟨rfl, rfl⟩
  | float q => exact ⟨rfl, rfl⟩
  | none => exact ⟨rfl, rfl⟩
  | str s =>
    rcases h with h | h | h | h | ⟨t, ht, hcols⟩
    · simp [isStrVal] at h
    · unfold actor_distributions
      rw [h]
      simp [isErr]
    · unfold actor_distributions
      rw [h]
      simp [isErr]
    · unfold actor_distributions
      cases hb : (isNumeric mh && isNumeric mn) with
      | false => simp [isErr]
      | true =>
        rw [h]
        simp [isErr]
    · unfold actor_distributions
      cases hb : (isNumeric mh && isNumeric mn) with
      | false => simp [isErr]
      | true =>
        rw [ht]
        simp only [hb, if_true]
        rw [if_neg hcols]
        exact ⟨rfl, rfl⟩

/-- C5 witness: the amended claim applied to a type-check failure (an
integer passed as the gender). -/
theorem actor_distributions_early_failures_witness :
    isErr (actor_distributions dsC (.int 3) (.float 2) (.float 1)).1 = true ∧
    (actor_distributions dsC (.int 3) (.float 2) (.float 1)).2 = dsC :=
  actor_distributions_early_failures_preserve_state dsC (.int 3) (.float 2) (.float 1)
    (Or.inl rfl)

/-- C4: with a string gender that is `"All"` or one of the observed
post-cleaning gender values and numeric bounds, `actor_distributions`
succeeds and every returned row's height lies in the inclusive range
`[min_height, max_height]`; in particular whenever `max_height ≤ 10` (as
with the bounds `(2.0, 1.5)`) no returned height exceeds `10`. -/
theorem actor_distributions_height_range
    (ds : MovieDataset) (t : CharTable) (g : String) (mh mn : PyVal)
    (ht : ds.character_metadata = Option.some t)
    (hc : "actor_gender" ∈ t.cols ∧ "actor_height" ∈ t.cols)
    (hnum : isNumeric mh = true ∧ isNumeric mn = true)
    (hg : g = "All" ∨ g ∈ validGenders t) :
    ∃ out ds', actor_distributions ds (.str g) mh mn = (.ok out, ds') ∧
      ∀ r ∈ out, numVal mn ≤ r.actor_height ∧ r.actor_height ≤ numVal mh ∧
        (numVal mh ≤ 10 → r.actor_height ≤ 10) := by
  obtain ⟨hmh, hmn⟩ := hnum
  have hvalid : ¬(g ≠ "All" ∧ g ∉ firstDedup
      ((dropnaNormalize (t.rows.map coerceCharRow)).filterMap
        (fun r => r.actor_gender)) ++ ["All"]) := by
    rcases hg with hg | hg
    · intro hcon; exact hcon.1 hg
    · intro hcon; exact hcon.2 (by simpa [validGenders] using hg)
  unfold actor_distributions
  rw [ht]
  simp only [hmh, hmn, Bool.and_self, if_true, if_pos hc]
  rw [if_neg hvalid]
  refine ⟨_, _, rfl, fun r hr => ?_⟩
  have hmem := List.mem_filter.mp hr
  have hcond := hmem.2
  simp only [Bool.and_eq_true, decide_eq_true_eq] at hcond
  exact ⟨hcond.1, hcond.2, fun hle => le_trans hcond.2 hle⟩

/-- C4 witness: on `dsA` with gender `"All"` and bounds `(2.0, 1.5)`
(centimeter rows such as 180 having been converted to meters). -/
theorem actor_distributions_height_range_witness :
    ∃ out ds', actor_distributions dsA (.str "All") (.float 2) (.float (3/2))
        = (.ok out, ds') ∧
      ∀ r ∈ out, numVal (.float (3/2)) ≤ r.actor_height ∧
        r.actor_height ≤ numVal (.float 2) ∧
        (numVal (.float 2) ≤ 10 → r.actor_height ≤ 10) :=
  actor_distributions_height_range dsA tB "All" (.float 2) (.float (3/2)) rfl
    (by decide) ⟨rfl, rfl⟩ (Or.inl rfl)

/-- C1: whenever `movie_type` is called on a loaded movie table with a
positive integer `n` at most the number of distinct genre names of the
parseable genre cells and returns a table, that table has exactly `n` rows
of (genre name, count) pairs whose counts are non-increasing. -/
theorem movie_type_topn_spec (ds : MovieDataset) (t : MovieTable) (n : Int)
    (res : List (String × Nat))
    (ht : ds.movie_metadata = Option.some t)
    (hok : (movie_type ds (.int n)).1 = .ok res)
    (hpos : 0 < n) (hle : n.toNat ≤ distinctGenreCount t) :
    res.length = n.toNat ∧
    List.Pairwise (fun p q : String × Nat => q.2 ≤ p.2) res := by
  simp only [movie_type, ht] at hok
  by_cases hcol : "genres" ∈ t.cols
  · rw [if_pos hcol] at hok
    cases hmap : mapExcept parseGenres
        ((t.rows.map (fun r => r.genres)).filter (fun g => g ≠ GenresCell.missing)) with
    | error e => rw [hmap] at hok; cases hok
    | ok lists =>
      rw [hmap] at hok
      have hres : res = headInt
          (List.insertionSort cntGe (value_counts lists.flatten)) n := by
        cases hok; rfl
      have hflat : lists.flatten = allGenres t := by
        rw [mapExcept_parseGenres_ok hmap, flatten_filter_missing]
        simp [allGenres, List.map_map, Function.comp_def]
      rw [hflat] at hres
      have hlen : (List.insertionSort cntGe (value_counts (allGenres t))).length
          = distinctGenreCount t := by
        rw [(List.perm_insertionSort cntGe _).length_eq]
        simp [value_counts, distinctGenreCount]
      rw [headInt, if_pos (le_of_lt hpos)] at hres
      constructor
      · rw [hres, List.length_take, hlen]
        exact Nat.min_eq_left hle
      · rw [hres]
        exact ((List.sorted_insertionSort cntGe _).sublist
          (List.take_sublist _ _)).imp (fun h => h)
  · rw [if_neg hcol] at hok
    cases hok

/-- C1 witness: `movie_type(1)` on `dsA` (two distinct genres). -/
theorem movie_type_topn_witness :
    ([("Drama", 2)] : List (String × Nat)).length = (1 : Int).toNat ∧
    List.Pairwise (fun p q : String × Nat => q.2 ≤ p.2) [("Drama", 2)] :=
  movie_type_topn_spec dsA tA 1 [("Drama", 2)] rfl rfl (by decide) (by decide)

/-- C7: on a loaded character table with its two required columns,
`actor_count` succeeds with one row per distinct per-movie unique-actor
count, sorted strictly ascending by that count, and the `Movie_Count`
column sums to the number of movies having at least one actor record. -/
theorem actor_count_spec (ds : MovieDataset) (t : CharTable)
    (ht : ds.character_metadata = Option.some t)
    (hc : "wiki_movie_id" ∈ t.cols ∧ "actor_name" ∈ t.cols) :
    ∃ res, actor_count ds = (.ok res, ds) ∧
      List.Pairwise (fun p q : Nat × Nat => p.1 < q.1) res ∧
      (res.map Prod.snd).sum = moviesWithActorRecord t := by
  simp only [actor_count, ht]
  rw [if_pos hc]
  refine ⟨_, rfl, pairwise_lt_sort_value_counts _, ?_⟩
  rw [sum_map_snd_sort_value_counts]
  simp [moviesWithActorRecord]

/-- C7 witness: `actor_count()` on `dsA` (two movies, with 2 and 1
distinct actors). -/
theorem actor_count_witness :
    ∃ res, actor_count dsA = (.ok res, dsA) ∧
      List.Pairwise (fun p q : Nat × Nat => p.1 < q.1) res ∧
      (res.map Prod.snd).sum = moviesWithActorRecord tB :=
  actor_count_spec dsA tB rfl (by decide)

/-- The release years of the rows that survive the date coercion and whose
genre dict contains the given genre, in row order. -/
def genreYears (t : MovieTable) (g : String) : List Int :=
  t.rows.filterMap (fun r =>
    match yearOf (coerceDate r.release_date) with
    | Option.some y => if g ∈ genresValues r.genres then Option.some y else Option.none
    | Option.none => Option.none)

/-- The number of movies carrying a given genre that have a parseable
release date. -/
def genreMovieCount (t : MovieTable) (g : String) : Nat :=
  (t.rows.filter (fun r =>
    (yearOf (coerceDate r.release_date)).isSome
      && decide (g ∈ genresValues r.genres))).length

theorem genreHasE_pure (g : String) :
    (fun p : Int × GenresCell =>
      match genreHasE p.2 g with | .ok b => b | .error _ => false)
    = fun p : Int × GenresCell => decide (g ∈ genresValues p.2) := by
  funext p
  cases h : p.2 <;> simp [genreHasE, genresValues, h]

theorem kept_filter_map_fst (rows : List MovieRow) (g : String) :
    (((rows.map (fun r => { r with release_date := coerceDate r.release_date })).filterMap
      (fun r => (yearOf r.release_date).map (fun y => (y, r.genres)))).filter
      (fun p => decide (g ∈ genresValues p.2))).map Prod.fst
    = rows.filterMap (fun r =>
        match yearOf (coerceDate r.release_date) with
        | Option.some y => if g ∈ genresValues r.genres then Option.some y else Option.none
        | Option.none => Option.none) := by
  induction rows with
  | nil => rfl
  | cons r rs ih =>
    simp only [List.map_cons, List.filterMap_cons]
    cases hy : yearOf (coerceDate r.release_date) with
    | none => simpa [hy] using ih
    | some y =>
      by_cases hgm : g ∈ genresValues r.genres
      · simpa [hy, hgm] using ih
      · simpa [hy, hgm] using ih

theorem genreYears_length (rows : List MovieRow) (g : String) :
    (rows.filterMap (fun r =>
      match yearOf (coerceDate r.release_date) with
      | Option.some y => if g ∈ genresValues r.genres then Option.some y else Option.none
      | Option.none => Option.none)).length
    = (rows.filter (fun r =>
        (yearOf (coerceDate r.release_date)).isSome
          && decide (g ∈ genresValues r.genres))).length := by
  induction rows with
  | nil => rfl
  | cons r rs ih =>
    rw [List.filterMap_cons, List.filter_cons]
    cases hy : yearOf (coerceDate r.release_date) with
    | none => simpa [hy] using ih
    | some y =>
      by_cases hgm : g ∈ genresValues r.genres
      · simp [hy, hgm, ih]
      · simp [hy, hgm, ih]

theorem mem_genreYears (t : MovieTable) (g : String) {y : Int}
    (hy : y ∈ genreYears t g) :
    ∃ r ∈ t.rows, yearOf (coerceDate r.release_date) = Option.some y ∧
      g ∈ genresValues r.genres := by
  rcases List.mem_filterMap.mp hy with ⟨r, hr, hmk⟩
  refine ⟨r, hr, ?_⟩
  cases hyr : yearOf (coerceDate r.release_date) with
  | none => rw [hyr] at hmk; simp at hmk
  | some y' =>
    rw [hyr] at hmk
    by_cases hgm : g ∈ genresValues r.genres
    · simp [hgm] at hmk
      subst hmk
      exact ⟨rfl, hgm⟩
    · simp [hgm] at hmk

/-- C6: whenever `releases("Documentary")` on a loaded movie table returns
a table, that table is sorted strictly ascending by year, contains only
years in which at least one movie whose parsed genre-name set contains
"Documentary" was released (each with a count of at least 1), and its
`Movie_Count` column sums to the number of such movies that have a
parseable release date. -/
theorem releases_documentary_spec (ds : MovieDataset) (t : MovieTable)
    (res : List (Int × Nat)) (st : MovieDataset)
    (ht : ds.movie_metadata = Option.some t)
    (hok : releases ds (Option.some "Documentary") = (.ok res, st)) :
    List.Pairwise (fun p q : Int × Nat => p.1 < q.1) res ∧
    (∀ p ∈ res, 1 ≤ p.2 ∧ ∃ r ∈ t.rows,
      yearOf (coerceDate r.release_date) = Option.some p.1 ∧
      "Documentary" ∈ genresValues r.genres) ∧
    (res.map Prod.snd).sum = genreMovieCount t "Documentary" := by
  simp only [releases, ht] at hok
  by_cases hcols : "release_date" ∈ t.cols ∧ "genres" ∈ t.cols
  · rw [if_pos hcols] at hok
    split at hok
    · simp at hok
    · next keptF heq =>
      simp only [Prod.mk.injEq, Except.ok.injEq] at hok
      obtain ⟨h1, _⟩ := hok
      have hkf : keptF.map Prod.fst = genreYears t "Documentary" := by
        rw [filterExcept_ok heq]
        rw [List.filter_congr (fun a _ => ?_)]
        · exact kept_filter_map_fst t.rows "Documentary"
        · show (match genreHasE a.2 "Documentary" with
            | .ok b => b | .error _ => false)
            = decide ("Documentary" ∈ genresValues a.2)
          cases h2 : a.2 <;> simp [genreHasE, genresValues, h2]
      rw [← h1, hkf]
      refine ⟨pairwise_lt_sort_value_counts _, fun p hp => ?_, ?_⟩
      · obtain ⟨hmem, hcnt⟩ := mem_sort_value_counts hp
        exact ⟨hcnt ▸ List.count_pos_iff.mpr hmem, mem_genreYears t "Documentary" hmem⟩
      · rw [sum_map_snd_sort_value_counts]
        simpa [genreYears, genreMovieCount] using
          genreYears_length t.rows "Documentary"
  · rw [if_neg hcols] at hok
    simp at hok

/-- C6 witness: `releases("Documentary")` on `dsA` returns `[(1995, 1)]`. -/
theorem releases_documentary_witness :
    List.Pairwise (fun p q : Int × Nat => p.1 < q.1) [((1995 : Int), 1)] ∧
    (∀ p ∈ [((1995 : Int), 1)], 1 ≤ p.2 ∧ ∃ r ∈ tA.rows,
      yearOf (coerceDate r.release_date) = Option.some p.1 ∧
      "Documentary" ∈ genresValues r.genres) ∧
    ([((1995 : Int), 1)].map Prod.snd).sum = genreMovieCount tA "Documentary" :=
  releases_documentary_spec dsA tA [(1995, 1)]
    (releases dsA (Option.some "Documentary")).2 rfl rfl

/-- C10: every successful `releases` call, beyond the in-place coercion of
`release_date`, adds the derived `Year` column to the shared
`movie_metadata` table, so every later consumer observes one more column;
starting from the recognized 9-column `movie_metadata` schema, the
observed table has 10 columns. -/
theorem releases_adds_year_column (ds : MovieDataset) (t : MovieTable)
    (g : Option String) (res : List (Int × Nat)) (st : MovieDataset)
    (ht : ds.movie_metadata = Option.some t)
    (hok : releases ds g = (.ok res, st))
    (hy : "Year" ∉ t.cols) :
    ∃ t', st.movie_metadata = Option.some t' ∧ t'.cols = t.cols ++ ["Year"] ∧
      t'.cols.length = t.cols.length + 1 ∧ "Year" ∈ t'.cols ∧
      (t.cols = movieMetadataSchema →
        t'.cols.length = movieMetadataSchema.length + 1) := by
  have hlen : (t.cols ++ ["Year"]).length = t.cols.length + 1 := by simp
  simp only [releases, ht] at hok
  by_cases hcols : "release_date" ∈ t.cols ∧ "genres" ∈ t.cols
  · rw [if_pos hcols, if_neg hy] at hok
    split at hok
    · simp at hok
    · simp only [Prod.mk.injEq] at hok
      obtain ⟨_, h2⟩ := hok
      subst h2
      refine ⟨_, rfl, rfl, hlen, ?_, fun hsch => by rw [hlen, hsch]⟩
      simp
  · rw [if_neg hcols] at hok
    simp at hok

/-- C10 witness: a successful `releases(None)` call on `dsA`, whose movie
table carries the recognized 9-column schema. -/
theorem releases_adds_year_column_witness :
    ∃ t', (releases dsA Option.none).2.movie_metadata = Option.some t' ∧
      t'.cols = tA.cols ++ ["Year"] ∧ t'.cols.length = tA.cols.length + 1 ∧
      "Year" ∈ t'.cols ∧
      (tA.cols = movieMetadataSchema →
        t'.cols.length = movieMetadataSchema.length + 1) :=
  releases_adds_year_column dsA tA Option.none [(1990, 1), (1995, 1)]
    (releases dsA Option.none).2 rfl rfl (by decide)
